import Mathlib

/-!
Verification of the payment-reconciliation core of the goldbond backend.

The definitions below are a shallow embedding of:
  - `backend/models/Payment.js` (the payment document, its pre-save hook and
    its transition methods `markAsCompleted`, `markAsFailed`, `processRefund`);
  - the payment routes (`/initialize`, `/verify/:reference`,
    `/webhook/paystack`) of the payment router.

Modelling conventions:
  - Timestamps (`new Date()` / `Date.now()`) are a `Nat` parameter `now`
    threaded into every transition.
  - The document database is a `DB` value holding the payment and booking
    collections as lists; `findOne` is `List.find?`, a `save()` of an
    existing document replaces the record with the matching key.
  - The crypto library (`crypto.createHmac(sha512, SECRET)...digest(hex)`)
    is an abstract parameter `hmacHex : String → String`: the hex HMAC-SHA512
    digest under the fixed shared secret.
  - `JSON.parse` of the webhook body is an `Option WebhookEvent` input
    (`none` models a parse exception, caught by the handler);
    the outbound gateway calls are `Option` inputs as well (`none` models a
    transport error thrown by axios and caught by the route).
  - Express request handling: each route is a pure function from the request
    data and the database to an HTTP response (status and message) and the
    updated database.
-/

namespace Goldbond

/-- Status enum of the payment schema (`Payment.js`, field `status`). -/
inductive PStatus
  | pending
  | processing
  | completed
  | failed
  | cancelled
  | refunded
  deriving DecidableEq

/-- Method enum of the payment schema (`Payment.js`, field `paymentMethod`). -/
inductive PMethod
  | card
  | bank_transfer
  | ussd
  | qr
  | mobile_money
  | cash
  deriving DecidableEq

/-- Opaque provider payload (stored in `providerResponse`, passed to the
transition methods); its structure is never inspected by the core. -/
abbrev ProviderData := String

/-- One payment document (`Payment.js` schema, the fields used by the core).
References to `User` and `Booking` documents are their numeric ids; `none`
timestamps model unset `Date` fields; an empty `reference` models an absent
reference (falsy in the pre-save hook). -/
structure Payment where
  user : Nat
  booking : Nat
  amount : Int
  currency : String
  paymentMethod : PMethod
  paymentProvider : String
  status : PStatus
  transactionId : Option Nat
  reference : String
  providerResponse : ProviderData
  paidAt : Option Nat
  description : String
  refundAmount : Int
  refundedAt : Option Nat
  refundReason : String
  verified : Bool
  verifiedAt : Option Nat
  failureReason : String
  retryCount : Nat
  deriving DecidableEq

/-- Pre-save hook (`Payment.js` lines 162-180): generates a reference when
absent (the fresh generated string is the parameter `freshRef`), sets
`paidAt`/`verified`/`verifiedAt` on first entry into `completed`, and
`refundedAt` on first entry into `refunded`. -/
def preSave (freshRef : String) (now : Nat) (p : Payment) : Payment :=
  let p1 := if p.reference = "" then { p with reference := freshRef } else p
  let p2 :=
    if p1.status = PStatus.completed ∧ p1.paidAt = none then
      { p1 with paidAt := some now, verified := true, verifiedAt := some now }
    else p1
  if p2.status = PStatus.refunded ∧ p2.refundedAt = none then
    { p2 with refundedAt := some now }
  else p2

/-- Instance method `markAsCompleted(transactionId, providerResponse)`
(`Payment.js` lines 194-202) followed by its `save()` (the pre-save hook;
records reaching this method already carry a reference, so the generation
branch of the hook is inert and its `freshRef` argument is irrelevant). -/
def markAsCompleted (now : Nat) (transactionId : Nat)
    (providerResponse : ProviderData) (p : Payment) : Payment :=
  preSave "" now
    { p with
      status := PStatus.completed
      transactionId := some transactionId
      providerResponse := providerResponse
      paidAt := some now
      verified := true
      verifiedAt := some now }

/-- Instance method `markAsFailed(reason, providerResponse)` (`Payment.js`
lines 205-211) followed by its `save()`. -/
def markAsFailed (now : Nat) (reason : String)
    (providerResponse : ProviderData) (p : Payment) : Payment :=
  preSave "" now
    { p with
      status := PStatus.failed
      failureReason := reason
      providerResponse := providerResponse
      retryCount := p.retryCount + 1 }

/-- Instance method `processRefund(amount, reason)` (`Payment.js` lines
214-228): throws (modelled as `Except.error`, in which case nothing is saved
and the stored record is unchanged) unless the payment is `completed` and the
amount does not exceed the payment amount; otherwise sets the refund fields
and saves. -/
def processRefund (now : Nat) (amount : Int) (reason : String)
    (p : Payment) : Except String Payment :=
  if p.status ≠ PStatus.completed then
    Except.error "Can only refund completed payments"
  else if amount > p.amount then
    Except.error "Refund amount cannot exceed payment amount"
  else
    Except.ok (preSave "" now
      { p with
        status := PStatus.refunded
        refundAmount := amount
        refundReason := reason
        refundedAt := some now })

/-- One booking document: the fields of the `Booking` collection that the
payment routes read (`booking.user`, `booking.testType`,
`booking.referenceNumber`) or write (`status`, `paymentStatus`). -/
structure Booking where
  id : Nat
  user : Nat
  testType : String
  referenceNumber : String
  status : String
  paymentStatus : String
  deriving DecidableEq

/-- The document database: the payment and booking collections. -/
structure DB where
  payments : List Payment
  bookings : List Booking
  deriving DecidableEq

/-- `Payment.findOne(reference)`. -/
def findPaymentByReference (db : DB) (reference : String) : Option Payment :=
  db.payments.find? (fun p => p.reference == reference)

/-- `Booking.findById(id)` (and the `populate(booking)` of the verify route). -/
def findBookingById (db : DB) (id : Nat) : Option Booking :=
  db.bookings.find? (fun b => b.id == id)

/-- `Booking.findOne(_id, user)` of the initialize route. -/
def findUserBooking (db : DB) (bid userId : Nat) : Option Booking :=
  db.bookings.find? (fun b => b.id == bid && b.user == userId)

/-- The duplicate-payment query of the initialize route:
`Payment.findOne(booking: bookingId, status: $in [completed, processing])`. -/
def findActivePaymentForBooking (db : DB) (bid : Nat) : Option Payment :=
  db.payments.find? (fun p =>
    p.booking == bid &&
      (p.status == PStatus.completed || p.status == PStatus.processing))

/-- `save()` on an already-stored payment: replaces the record with the same
reference (the unique key the routes look payments up by). -/
def savePayment (db : DB) (p : Payment) : DB :=
  { db with
    payments := db.payments.map (fun q => if q.reference == p.reference then p else q) }

/-- `save()` on an already-stored booking: replaces the record with the same id. -/
def saveBooking (db : DB) (b : Booking) : DB :=
  { db with
    bookings := db.bookings.map (fun c => if c.id == b.id then b else c) }

/-- First `save()` of a freshly constructed payment: appends it to the
collection. -/
def insertPayment (db : DB) (p : Payment) : DB :=
  { db with payments := db.payments ++ [p] }

/-- An HTTP response: status code and body message. -/
structure Resp where
  status : Nat
  msg : String
  deriving DecidableEq

/-- Result of `JSON.parse` on the webhook body: the event name and the fields
of `event.data` the handler destructures (`reference`, `id`), plus the whole
`event.data` payload (stored as `providerResponse`). -/
structure WebhookEvent where
  event : String
  reference : String
  transactionId : Nat
  data : ProviderData
  deriving DecidableEq

/-- `JSON.stringify` applied to a Node `Buffer` of bytes: it does not yield
the raw bytes but the JSON object form of the buffer. -/
def jsonStringifyBuffer (bytes : List Nat) : String :=
  "\x7b\"type\":\"Buffer\",\"data\":[" ++
    String.intercalate "," (bytes.map toString) ++ "]\x7d"

/-- Helper `verifyPaystackSignature(payload, signature)` (payment router,
lines 124-130): computes the hex HMAC-SHA512 of `JSON.stringify(payload)`
under the shared secret and compares it to the signature header. In the
webhook route the payload is the raw-body Buffer provided by
`express.raw`, so `JSON.stringify` produces its Node serialization; see
`jsonStringifyBuffer`. -/
def verifyPaystackSignature (hmacHex : String → String) (payload : List Nat)
    (signature : String) : Bool :=
  hmacHex (jsonStringifyBuffer payload) = signature

/-- The raw request body bytes decoded as the literal string they spell:
what the provider signs, and what the spec says the verifier must hash. -/
def rawBodyString (bytes : List Nat) : String :=
  String.mk (bytes.map Char.ofNat)

/-- `POST /webhook/paystack` (payment router, lines 336-369). Inputs: the raw
body bytes, the `x-paystack-signature` header (absent = `none`), the result
of `JSON.parse` on the body (`none` = parse exception, caught and mapped to
500), the current time and the database. A missing or empty header is falsy
in the guard `!signature`. -/
def webhookPaystack (hmacHex : String → String) (body : List Nat)
    (signature : Option String) (parsed : Option WebhookEvent)
    (now : Nat) (db : DB) : Resp × DB :=
  match signature with
  | none => ({ status := 400, msg := "Invalid signature" }, db)
  | some s =>
    if s = "" then ({ status := 400, msg := "Invalid signature" }, db)
    else if verifyPaystackSignature hmacHex body s then
      match parsed with
      | none => ({ status := 500, msg := "Webhook processing failed" }, db)
      | some event =>
        if event.event = "charge.success" then
          match findPaymentByReference db event.reference with
          | some payment =>
            if payment.status ≠ PStatus.completed then
              let db2 := savePayment db
                (markAsCompleted now event.transactionId event.data payment)
              match findBookingById db2 payment.booking with
              | some booking =>
                ({ status := 200, msg := "OK" },
                  saveBooking db2
                    { booking with status := "confirmed", paymentStatus := "paid" })
              | none => ({ status := 200, msg := "OK" }, db2)
            else ({ status := 200, msg := "OK" }, db)
          | none => ({ status := 200, msg := "OK" }, db)
        else if event.event = "charge.failed" then
          match findPaymentByReference db event.reference with
          | some payment =>
            ({ status := 200, msg := "OK" },
              savePayment db (markAsFailed now "Payment failed" event.data payment))
          | none => ({ status := 200, msg := "OK" }, db)
        else ({ status := 200, msg := "OK" }, db)
    else ({ status := 400, msg := "Invalid signature" }, db)

/-- Result of the gateway verify call
(`GET /transaction/verify/:reference`): the fields the route reads from
`verificationResponse.data.data`. -/
structure VerifyData where
  status : String
  id : Nat
  raw : ProviderData
  deriving DecidableEq

/-- `POST /verify/:reference` (payment router, lines 237-272). `gateway` is
the outcome of the axios verify call (`none` = transport error, caught and
mapped to 500); it is consulted only for non-cash payments. -/
def verifyRoute (db : DB) (reference : String) (gateway : Option VerifyData)
    (now : Nat) : Resp × DB :=
  match findPaymentByReference db reference with
  | none => ({ status := 404, msg := "Payment not found" }, db)
  | some payment =>
    if payment.paymentMethod ≠ PMethod.cash then
      match gateway with
      | none => ({ status := 500, msg := "Failed to verify payment" }, db)
      | some verificationData =>
        if verificationData.status = "success" then
          let db2 := savePayment db
            (markAsCompleted now verificationData.id verificationData.raw payment)
          match findBookingById db2 payment.booking with
          | some booking =>
            ({ status := 200, msg := "success" },
              saveBooking db2
                { booking with status := "confirmed", paymentStatus := "paid" })
          | none => ({ status := 200, msg := "success" }, db2)
        else
          ({ status := 200, msg := "success" },
            savePayment db
              (markAsFailed now "Payment verification failed" verificationData.raw payment))
    else ({ status := 200, msg := "success" }, db)

/-- Result of the gateway initialize call
(`POST /transaction/initialize`): `paystackResponse.data.status` and the
`paystackResponse.data.data` payload (authorization url and access code,
kept opaque). -/
structure InitData where
  status : Bool
  data : ProviderData
  deriving DecidableEq

/-- The `new Payment(...)` document constructed by the initialize route
(lines 152-166), before its first `save()`; unsupplied schema fields take
their schema defaults, and the reference is empty until the pre-save hook
generates it. -/
def newPayment (userId bid : Nat) (amount : Int) (currency : String)
    (paymentMethod : PMethod) (booking : Booking) : Payment :=
  { user := userId
    booking := bid
    amount := amount
    currency := currency
    paymentMethod := paymentMethod
    paymentProvider := if paymentMethod = PMethod.cash then "cash" else "paystack"
    status := PStatus.pending
    transactionId := none
    reference := ""
    providerResponse := ""
    paidAt := none
    description := "Payment for " ++ booking.testType ++ " - " ++ booking.referenceNumber
    refundAmount := 0
    refundedAt := none
    refundReason := ""
    verified := false
    verifiedAt := none
    failureReason := ""
    retryCount := 0 }

/-- `POST /initialize` (payment router, lines 135-232). `bookingId` and
`amount` are `none` when absent from the request body (the guard
`!bookingId || !amount` also fires on a zero amount, zero being falsy);
`freshRef` is the reference the pre-save hook generates for the new record;
`gateway` is the outcome of the axios initialize call (`none` = transport
error). On a gateway response with falsy `status` the route throws, the
catch block answers 500, and the record saved before the call stays as
saved. -/
def initializeRoute (db : DB) (userId : Nat) (bookingId : Option Nat)
    (amount : Option Int) (paymentMethod : PMethod) (currency : String)
    (freshRef : String) (gateway : Option InitData) (now : Nat) : Resp × DB :=
  match bookingId, amount with
  | none, _ => ({ status := 400, msg := "Booking ID and amount are required" }, db)
  | some _, none => ({ status := 400, msg := "Booking ID and amount are required" }, db)
  | some bid, some amt =>
    if amt = 0 then
      ({ status := 400, msg := "Booking ID and amount are required" }, db)
    else
      match findUserBooking db bid userId with
      | none => ({ status := 404, msg := "Booking not found" }, db)
      | some booking =>
        match findActivePaymentForBooking db bid with
        | some _ =>
          ({ status := 400, msg := "Payment already exists for this booking" }, db)
        | none =>
          let payment := preSave freshRef now
            (newPayment userId bid amt currency paymentMethod booking)
          let db2 := insertPayment db payment
          if paymentMethod = PMethod.cash then
            ({ status := 201, msg := "Cash payment initialized" }, db2)
          else
            match gateway with
            | none => ({ status := 500, msg := "Failed to initialize payment" }, db2)
            | some resp =>
              if resp.status then
                ({ status := 201, msg := "Payment initialized successfully" },
                  savePayment db2 (preSave freshRef now
                    { payment with
                      status := PStatus.processing
                      providerResponse := resp.data }))
              else
                ({ status := 500, msg := "Failed to initialize payment" }, db2)

/-!  Helper lemmas about the pre-save hook and the transition methods. -/

/-- The pre-save hook is the identity when none of its three branches fire. -/
theorem preSave_inert (freshRef : String) (now : Nat) (p : Payment)
    (h0 : ¬p.reference = "")
    (h1 : ¬(p.status = PStatus.completed ∧ p.paidAt = none))
    (h2 : ¬(p.status = PStatus.refunded ∧ p.refundedAt = none)) :
    preSave freshRef now p = p := by
  unfold preSave
  simp [h0, h1, h2]

/-- markAsFailed on a stored record (nonempty reference) is exactly the field
update of the source method: the hook adds nothing. -/
theorem markAsFailed_eq (now : Nat) (reason : String) (d : ProviderData)
    (p : Payment) (h0 : ¬p.reference = "") :
    markAsFailed now reason d p =
      { p with
        status := PStatus.failed
        failureReason := reason
        providerResponse := d
        retryCount := p.retryCount + 1 } := by
  unfold markAsFailed
  exact preSave_inert _ _ _ h0 (by simp) (by simp)

/-- markAsCompleted on a stored record is exactly the field update of the
source method: the hook adds nothing because `paidAt` is already set. -/
theorem markAsCompleted_eq (now : Nat) (tid : Nat) (d : ProviderData)
    (p : Payment) (h0 : ¬p.reference = "") :
    markAsCompleted now tid d p =
      { p with
        status := PStatus.completed
        transactionId := some tid
        providerResponse := d
        paidAt := some now
        verified := true
        verifiedAt := some now } := by
  unfold markAsCompleted
  exact preSave_inert _ _ _ h0 (by simp) (by simp)

/-- markAsFailed always lands in status failed, whatever the prior status. -/
theorem markAsFailed_status (now : Nat) (reason : String) (d : ProviderData)
    (p : Payment) : (markAsFailed now reason d p).status = PStatus.failed := by
  unfold markAsFailed preSave
  by_cases hr : p.reference = "" <;> simp [hr]

/-- The pre-save hook leaves a record untouched when its reference is already
the one the hook would assign and it is in neither of the two
timestamp-setting situations. -/
theorem preSave_noop (freshRef : String) (now : Nat) (p : Payment)
    (h0 : p.reference = freshRef)
    (h1 : ¬p.status = PStatus.completed)
    (h2 : ¬p.status = PStatus.refunded) :
    preSave freshRef now p = p := by
  subst h0
  unfold preSave
  by_cases hr : p.reference = ""
  · have heta : ({ p with reference := "" } : Payment) = p := by rw [← hr]
    simp [hr, h1, h2, heta]
  · simp [hr, h1, h2]

/-- The first save of the document built by the initialize route only fills
in the generated reference. -/
theorem preSave_newPayment (freshRef : String) (now : Nat) (userId bid : Nat)
    (amt : Int) (cur : String) (pm : PMethod) (bk : Booking) :
    preSave freshRef now (newPayment userId bid amt cur pm bk)
      = { newPayment userId bid amt cur pm bk with reference := freshRef } := by
  unfold preSave newPayment
  simp

/-- Re-saving the just-inserted record (same reference, not colliding with
any stored payment) collapses to inserting the re-saved record. -/
theorem savePayment_insert (db : DB) (p0 p2 : Payment)
    (hnone : findPaymentByReference db p2.reference = none)
    (h0 : p0.reference = p2.reference) :
    savePayment (insertPayment db p0) p2 = insertPayment db p2 := by
  have hall : ∀ q ∈ db.payments, ¬(q.reference == p2.reference) = true := by
    rw [findPaymentByReference, List.find?_eq_none] at hnone
    exact hnone
  have h1 : ∀ l : List Payment,
      (∀ q ∈ l, ¬(q.reference == p2.reference) = true) →
      l.map (fun q => if q.reference == p2.reference then p2 else q) = l := by
    intro l
    induction l with
    | nil => intro _; rfl
    | cons a t ih =>
      intro h
      simp only [List.map_cons]
      rw [if_neg (h a (List.mem_cons_self a t)),
        ih (fun q hq => h q (List.mem_cons_of_mem a hq))]
  simp only [savePayment, insertPayment]
  rw [List.map_append, h1 db.payments hall]
  simp [h0]

/-!  Concrete fixtures used by the closed counterexamples and witnesses. -/

/-- A booking owned by user 1. -/
def bookingA : Booking :=
  { id := 1, user := 1, testType := "blood", referenceNumber := "MLAB1",
    status := "pending", paymentStatus := "unpaid" }

/-- A card payment in status processing for bookingA. -/
def payProcessing : Payment :=
  { user := 1, booking := 1, amount := 5000, currency := "NGN",
    paymentMethod := PMethod.card, paymentProvider := "paystack",
    status := PStatus.processing, transactionId := none, reference := "PAY_A",
    providerResponse := "init", paidAt := none, description := "",
    refundAmount := 0, refundedAt := none, refundReason := "",
    verified := false, verifiedAt := none, failureReason := "", retryCount := 0 }

/-- A card payment already completed at time 10 (reference PAY_B). -/
def payCompleted : Payment :=
  { payProcessing with
    reference := "PAY_B"
    status := PStatus.completed
    transactionId := some 77
    providerResponse := "ok"
    paidAt := some 10
    verified := true
    verifiedAt := some 10 }

/-- A cash payment in status pending (reference PAY_C). -/
def payCash : Payment :=
  { payProcessing with
    reference := "PAY_C"
    paymentMethod := PMethod.cash
    paymentProvider := "cash"
    status := PStatus.pending
    providerResponse := "" }

/-- A database holding only the completed payment. -/
def dbCompleted : DB := { payments := [payCompleted], bookings := [] }

/-- A charge.failed webhook event for the completed payment. -/
def failEventB : WebhookEvent :=
  { event := "charge.failed", reference := "PAY_B", transactionId := 88, data := "fd" }

/-- A charge.success webhook event for the completed payment. -/
def successEventB : WebhookEvent :=
  { event := "charge.success", reference := "PAY_B", transactionId := 77, data := "ok" }

/-- A charge.success webhook event whose reference matches no stored payment. -/
def unknownEvent : WebhookEvent :=
  { event := "charge.success", reference := "PAY_X", transactionId := 1, data := "u" }

/-- A database with bookingA and a processing payment for it. -/
def dbBooked : DB := { payments := [payProcessing], bookings := [bookingA] }

/-- A database with bookingA and no payment yet. -/
def dbNoPayment : DB := { payments := [], bookings := [bookingA] }

/-- A database with bookingA and a pending cash payment. -/
def dbCash : DB := { payments := [payCash], bookings := [bookingA] }

/-- C1 counterexample: a payment already `completed` (payCompleted, completed
at time 10) is reverted to `failed` by a later authenticated `charge.failed`
webhook: the handler applies markAsFailed without any completed-guard, so the
stored status after the webhook is `failed`, not `completed`. -/
theorem failed_webhook_reverts_completed_cex :
    payCompleted.status = PStatus.completed ∧
    ((webhookPaystack id [] (some (jsonStringifyBuffer [])) (some failEventB) 20
        dbCompleted).2.payments.map Payment.status) = [PStatus.failed] := by decide

/-- C1 amended: mark-failed is unconditional. For every payment found by an
authenticated `charge.failed` webhook — including one whose status is already
`completed` — the handler stores markAsFailed of the record, whose status is
always `failed`; only the `charge.success` branch carries a completed-guard. -/
theorem webhook_failed_sets_failed_even_if_completed (hmacHex : String → String)
    (body : List Nat) (s : String) (e : WebhookEvent) (now : Nat) (db : DB)
    (p : Payment)
    (hs : ¬s = "") (hsig : verifyPaystackSignature hmacHex body s = true)
    (hev : e.event = "charge.failed")
    (hfind : findPaymentByReference db e.reference = some p) :
    webhookPaystack hmacHex body (some s) (some e) now db
      = ({ status := 200, msg := "OK" },
          savePayment db (markAsFailed now "Payment failed" e.data p)) ∧
    (markAsFailed now "Payment failed" e.data p).status = PStatus.failed := by
  refine ⟨?_, markAsFailed_status _ _ _ _⟩
  simp [webhookPaystack, hs, hsig, hev, hfind]

/-- Witness for the amended C1 theorem at the concrete completed payment. -/
theorem webhook_failed_sets_failed_witness :
    ((¬jsonStringifyBuffer [] = "") ∧
      verifyPaystackSignature id [] (jsonStringifyBuffer []) = true ∧
      failEventB.event = "charge.failed" ∧
      findPaymentByReference dbCompleted failEventB.reference = some payCompleted) ∧
    (webhookPaystack id [] (some (jsonStringifyBuffer [])) (some failEventB) 20
        dbCompleted
      = ({ status := 200, msg := "OK" },
          savePayment dbCompleted
            (markAsFailed 20 "Payment failed" failEventB.data payCompleted)) ∧
      (markAsFailed 20 "Payment failed" failEventB.data payCompleted).status
        = PStatus.failed) :=
  ⟨⟨by decide, by decide, rfl, by decide⟩,
    webhook_failed_sets_failed_even_if_completed id [] (jsonStringifyBuffer [])
      failEventB 20 dbCompleted payCompleted
      (by decide) (by decide) rfl (by decide)⟩

/-- C2 counterexample: the completion transition is not idempotent. Applying
markAsCompleted a second time (at a later time, 20) to a payment completed at
time 10 changes `paidAt`; concretely, a verify call whose gateway answer is
`success`, arriving after the webhook already completed the payment at time
10, rewrites the stored `paidAt` to 20. -/
theorem second_completion_changes_paidAt_cex :
    ((markAsCompleted 20 77 "d" (markAsCompleted 10 77 "d" payProcessing)).paidAt
        ≠ (markAsCompleted 10 77 "d" payProcessing).paidAt) ∧
    ((verifyRoute dbCompleted "PAY_B" (some { status := "success", id := 77, raw := "d" })
        20).2.payments.map Payment.paidAt = [some 20]) ∧
    payCompleted.paidAt = some 10 := by decide

/-- C2 amended: only the webhook completion path is idempotent. A duplicate
authenticated `charge.success` webhook for a payment that is already
`completed` is a no-op: the database (payments and bookings, hence `paidAt`,
`verified`, `verifiedAt`) is unchanged and the handler acknowledges with 200.
(The verify route has no such guard: per the counterexample it rewrites
`paidAt` on a second completion.) -/
theorem webhook_success_noop_when_completed (hmacHex : String → String)
    (body : List Nat) (s : String) (e : WebhookEvent) (now : Nat) (db : DB)
    (p : Payment)
    (hs : ¬s = "") (hsig : verifyPaystackSignature hmacHex body s = true)
    (hev : e.event = "charge.success")
    (hfind : findPaymentByReference db e.reference = some p)
    (hc : p.status = PStatus.completed) :
    webhookPaystack hmacHex body (some s) (some e) now db
      = ({ status := 200, msg := "OK" }, db) := by
  simp [webhookPaystack, hs, hsig, hev, hfind, hc]

/-- Witness for the amended C2 theorem: redelivering `charge.success` for the
already-completed payment leaves the database untouched. -/
theorem webhook_success_noop_witness :
    ((¬jsonStringifyBuffer [] = "") ∧
      verifyPaystackSignature id [] (jsonStringifyBuffer []) = true ∧
      successEventB.event = "charge.success" ∧
      findPaymentByReference dbCompleted successEventB.reference = some payCompleted ∧
      payCompleted.status = PStatus.completed) ∧
    webhookPaystack id [] (some (jsonStringifyBuffer [])) (some successEventB) 20
        dbCompleted
      = ({ status := 200, msg := "OK" }, dbCompleted) :=
  ⟨⟨by decide, by decide, rfl, by decide, by decide⟩,
    webhook_success_noop_when_completed id [] (jsonStringifyBuffer [])
      successEventB 20 dbCompleted payCompleted
      (by decide) (by decide) rfl (by decide) (by decide)⟩

/-- C4: processRefund errors (saving nothing, so the stored record is
untouched) on any non-completed payment, and on any amount exceeding the
payment amount; from `completed` with an amount within bounds it returns the
record with `status = refunded`, the refund fields set, and the money fields
untouched. -/
theorem processRefund_spec (p : Payment) (now : Nat) (amt : Int)
    (reason : String) :
    (¬p.status = PStatus.completed →
      processRefund now amt reason p
        = Except.error "Can only refund completed payments") ∧
    (p.status = PStatus.completed → p.amount < amt →
      processRefund now amt reason p
        = Except.error "Refund amount cannot exceed payment amount") ∧
    (p.status = PStatus.completed → amt ≤ p.amount →
      ∃ q, processRefund now amt reason p = Except.ok q ∧
        q.status = PStatus.refunded ∧ q.refundAmount = amt ∧
        q.refundedAt = some now ∧ q.refundReason = reason ∧
        q.amount = p.amount ∧ q.reference = p.reference ∧
        q.paidAt = p.paidAt) := by
  refine ⟨fun h => ?_, fun h1 h2 => ?_, fun h1 h2 => ?_⟩
  · simp [processRefund, h]
  · simp [processRefund, h1, h2]
  · refine ⟨preSave "" now
      { p with
        status := PStatus.refunded
        refundAmount := amt
        refundReason := reason
        refundedAt := some now }, ?_, ?_⟩
    · simp [processRefund, h1, not_lt.mpr h2]
    · by_cases hr : p.reference = "" <;> simp [preSave, hr]

/-- Witness for C4, exercising all three cases: refund of a processing
payment rejected, excessive refund rejected, and a valid refund of 50 out of
5000 from the completed payment. -/
theorem processRefund_spec_witness :
    (¬payProcessing.status = PStatus.completed ∧
      processRefund 30 50 "r" payProcessing
        = Except.error "Can only refund completed payments") ∧
    (payCompleted.status = PStatus.completed ∧ payCompleted.amount < 6000 ∧
      processRefund 30 6000 "r" payCompleted
        = Except.error "Refund amount cannot exceed payment amount") ∧
    (payCompleted.status = PStatus.completed ∧ (50 : Int) ≤ payCompleted.amount ∧
      ∃ q, processRefund 30 50 "r" payCompleted = Except.ok q ∧
        q.status = PStatus.refunded ∧ q.refundAmount = 50 ∧
        q.refundedAt = some 30 ∧ q.refundReason = "r" ∧
        q.amount = payCompleted.amount ∧ q.reference = payCompleted.reference ∧
        q.paidAt = payCompleted.paidAt) :=
  ⟨⟨by decide, (processRefund_spec payProcessing 30 50 "r").1 (by decide)⟩,
    ⟨by decide, by decide,
      (processRefund_spec payCompleted 30 6000 "r").2.1 (by decide) (by decide)⟩,
    ⟨by decide, by decide,
      (processRefund_spec payCompleted 30 50 "r").2.2 (by decide) (by decide)⟩⟩

/-- C5 (code bug): the verifier hashes the Node serialization of the raw-body
Buffer, not the raw bytes. For any keyed hash distinguishing the two strings,
the signature the provider computes over the exact raw bytes is rejected,
while the hash of the re-serialized form is accepted. Shown at the one-byte
body 97 (the string a). -/
theorem signature_hashes_reserialized_buffer (hmacHex : String → String)
    (h : ¬hmacHex (jsonStringifyBuffer [97]) = hmacHex (rawBodyString [97])) :
    verifyPaystackSignature hmacHex [97] (hmacHex (rawBodyString [97])) = false ∧
    verifyPaystackSignature hmacHex [97] (hmacHex (jsonStringifyBuffer [97])) = true := by
  constructor
  · simp [verifyPaystackSignature, h]
  · simp [verifyPaystackSignature]

/-- Witness for C5 at a concrete injective-on-these-inputs hash. -/
theorem signature_hashes_reserialized_buffer_witness :
    (¬id (jsonStringifyBuffer [97]) = id (rawBodyString [97])) ∧
    (verifyPaystackSignature id [97] (id (rawBodyString [97])) = false ∧
      verifyPaystackSignature id [97] (id (jsonStringifyBuffer [97])) = true) :=
  ⟨by decide, signature_hashes_reserialized_buffer id (by decide)⟩

/-- C3: when the booking exists for the requesting user but some stored
payment for the booking is `completed` or `processing` (the duplicate-payment
query finds a record), initialization answers 400 with the conflict message
and the database is returned unchanged: no record is created. -/
theorem initialize_rejects_duplicate (db : DB) (userId bid : Nat) (amt : Int)
    (pm : PMethod) (cur freshRef : String) (g : Option InitData) (now : Nat)
    (bk : Booking) (q : Payment)
    (ha : ¬amt = 0)
    (hb : findUserBooking db bid userId = some bk)
    (hq : findActivePaymentForBooking db bid = some q) :
    initializeRoute db userId (some bid) (some amt) pm cur freshRef g now
      = ({ status := 400, msg := "Payment already exists for this booking" }, db) := by
  simp [initializeRoute, ha, hb, hq]

/-- Witness for C3: a second card payment for bookingA while payProcessing is
processing is rejected with the conflict error and the database is unchanged. -/
theorem initialize_rejects_duplicate_witness :
    ((¬(5000 : Int) = 0) ∧
      findUserBooking dbBooked 1 1 = some bookingA ∧
      findActivePaymentForBooking dbBooked 1 = some payProcessing) ∧
    initializeRoute dbBooked 1 (some 1) (some 5000) PMethod.card "NGN" "PAY_N"
        none 40
      = ({ status := 400, msg := "Payment already exists for this booking" },
          dbBooked) :=
  ⟨⟨by decide, by decide, by decide⟩,
    initialize_rejects_duplicate dbBooked 1 1 5000 PMethod.card "NGN" "PAY_N"
      none 40 bookingA payProcessing (by decide) (by decide) (by decide)⟩

/-- C6: the webhook fails closed. A missing signature header, an empty one,
or one differing from the hash the verifier computes over the payload all
answer 400 and return the database unchanged: no payment or booking is
mutated. -/
theorem webhook_fails_closed (hmacHex : String → String) (body : List Nat)
    (parsed : Option WebhookEvent) (now : Nat) (db : DB) :
    (webhookPaystack hmacHex body none parsed now db
        = ({ status := 400, msg := "Invalid signature" }, db)) ∧
    (∀ s : String, (s = "" ∨ ¬hmacHex (jsonStringifyBuffer body) = s) →
      webhookPaystack hmacHex body (some s) parsed now db
        = ({ status := 400, msg := "Invalid signature" }, db)) := by
  refine ⟨rfl, fun s h => ?_⟩
  rcases h with h | h
  · simp [webhookPaystack, h]
  · by_cases he : s = ""
    · simp [webhookPaystack, he]
    · simp [webhookPaystack, he, verifyPaystackSignature, h]

/-- Witness for C6: a missing header and a wrong header are both rejected on
the concrete database, which is returned unchanged. -/
theorem webhook_fails_closed_witness :
    (webhookPaystack id [] none none 0 dbCompleted
        = ({ status := 400, msg := "Invalid signature" }, dbCompleted)) ∧
    (("x" = "" ∨ ¬id (jsonStringifyBuffer []) = "x") ∧
      webhookPaystack id [] (some "x") none 0 dbCompleted
        = ({ status := 400, msg := "Invalid signature" }, dbCompleted)) :=
  ⟨(webhook_fails_closed id [] none 0 dbCompleted).1,
    ⟨Or.inr (by decide),
      (webhook_fails_closed id [] none 0 dbCompleted).2 "x" (Or.inr (by decide))⟩⟩

/-- C10: verifying a cash payment consults no gateway (the gateway outcome
`g` is arbitrary and absent from the result) and mutates nothing: the
database comes back unchanged with a success response. -/
theorem verify_cash_no_gateway_no_change (db : DB) (reference : String)
    (g : Option VerifyData) (now : Nat) (p : Payment)
    (hfind : findPaymentByReference db reference = some p)
    (hcash : p.paymentMethod = PMethod.cash) :
    verifyRoute db reference g now = ({ status := 200, msg := "success" }, db) := by
  simp [verifyRoute, hfind, hcash]

/-- Witness for C10: verifying the pending cash payment, even with a gateway
stub reporting success, leaves the database unchanged. -/
theorem verify_cash_no_gateway_no_change_witness :
    (findPaymentByReference dbCash "PAY_C" = some payCash ∧
      payCash.paymentMethod = PMethod.cash) ∧
    verifyRoute dbCash "PAY_C" (some { status := "success", id := 9, raw := "x" }) 50
      = ({ status := 200, msg := "success" }, dbCash) :=
  ⟨⟨by decide, by decide⟩,
    verify_cash_no_gateway_no_change dbCash "PAY_C"
      (some { status := "success", id := 9, raw := "x" }) 50 payCash
      (by decide) (by decide)⟩

/-- C7: initializing an online (non-cash) payment consults the gateway. On a
gateway success the single record created for the request ends in status
`processing` with the provider payload (redirect handle) stored and the route
answers 201; on a gateway-reported failure the route answers 500 and the
record stays exactly as first saved: status `pending`, no provider payload. -/
theorem initialize_online_outcomes (db : DB) (userId bid : Nat) (amt : Int)
    (pm : PMethod) (cur freshRef : String) (now : Nat) (bk : Booking)
    (ha : ¬amt = 0) (hpm : ¬pm = PMethod.cash) (href : ¬freshRef = "")
    (hb : findUserBooking db bid userId = some bk)
    (hnodup : findActivePaymentForBooking db bid = none)
    (hfresh : findPaymentByReference db freshRef = none) :
    (∀ d : ProviderData, ∃ p2 : Payment,
      initializeRoute db userId (some bid) (some amt) pm cur freshRef
          (some { status := true, data := d }) now
        = ({ status := 201, msg := "Payment initialized successfully" },
            insertPayment db p2) ∧
      p2.status = PStatus.processing ∧ p2.providerResponse = d ∧
      p2.reference = freshRef ∧ p2.booking = bid ∧ p2.amount = amt) ∧
    (∀ d : ProviderData, ∃ p1 : Payment,
      initializeRoute db userId (some bid) (some amt) pm cur freshRef
          (some { status := false, data := d }) now
        = ({ status := 500, msg := "Failed to initialize payment" },
            insertPayment db p1) ∧
      p1.status = PStatus.pending ∧ p1.providerResponse = "" ∧
      p1.reference = freshRef ∧ p1.booking = bid ∧ p1.amount = amt) := by
  constructor
  · intro d
    have hstep : preSave freshRef now
        { preSave freshRef now (newPayment userId bid amt cur pm bk) with
          status := PStatus.processing, providerResponse := d }
        = { preSave freshRef now (newPayment userId bid amt cur pm bk) with
            status := PStatus.processing, providerResponse := d } :=
      preSave_inert _ _ _ href (fun h => PStatus.noConfusion h.1)
        (fun h => PStatus.noConfusion h.1)
    refine ⟨{ preSave freshRef now (newPayment userId bid amt cur pm bk) with
        status := PStatus.processing, providerResponse := d },
      ?_, rfl, rfl, rfl, rfl, rfl⟩
    simp only [initializeRoute, hb, hnodup]
    rw [if_neg ha, if_neg hpm]
    rw [hstep]
    rw [savePayment_insert db
      (preSave freshRef now (newPayment userId bid amt cur pm bk))
      { preSave freshRef now (newPayment userId bid amt cur pm bk) with
        status := PStatus.processing, providerResponse := d }
      hfresh rfl]
    rfl
  · intro d
    refine ⟨preSave freshRef now (newPayment userId bid amt cur pm bk),
      ?_, rfl, rfl, rfl, rfl, rfl⟩
    simp only [initializeRoute, hb, hnodup]
    rw [if_neg ha, if_neg hpm]
    rfl

/-- Witness for C7: with bookingA, an empty payment collection and amount
5000, a gateway success yields 201 with one processing record, a gateway
failure yields 500 with the one record still pending. -/
theorem initialize_online_outcomes_witness :
    ((¬(5000 : Int) = 0) ∧ (¬PMethod.card = PMethod.cash) ∧ (¬"PAY_N" = "") ∧
      findUserBooking dbNoPayment 1 1 = some bookingA ∧
      findActivePaymentForBooking dbNoPayment 1 = none ∧
      findPaymentByReference dbNoPayment "PAY_N" = none) ∧
    (∃ p2 : Payment,
      initializeRoute dbNoPayment 1 (some 1) (some 5000) PMethod.card "NGN"
          "PAY_N" (some { status := true, data := "url" }) 40
        = ({ status := 201, msg := "Payment initialized successfully" },
            insertPayment dbNoPayment p2) ∧
      p2.status = PStatus.processing ∧ p2.providerResponse = "url" ∧
      p2.reference = "PAY_N" ∧ p2.booking = 1 ∧ p2.amount = 5000) ∧
    (∃ p1 : Payment,
      initializeRoute dbNoPayment 1 (some 1) (some 5000) PMethod.card "NGN"
          "PAY_N" (some { status := false, data := "no" }) 40
        = ({ status := 500, msg := "Failed to initialize payment" },
            insertPayment dbNoPayment p1) ∧
      p1.status = PStatus.pending ∧ p1.providerResponse = "" ∧
      p1.reference = "PAY_N" ∧ p1.booking = 1 ∧ p1.amount = 5000) :=
  ⟨⟨by decide, by decide, by decide, by decide, by decide, by decide⟩,
    (initialize_online_outcomes dbNoPayment 1 1 5000 PMethod.card "NGN" "PAY_N"
      40 bookingA (by decide) (by decide) (by decide) (by decide) (by decide)
      (by decide)).1 "url",
    (initialize_online_outcomes dbNoPayment 1 1 5000 PMethod.card "NGN" "PAY_N"
      40 bookingA (by decide) (by decide) (by decide) (by decide) (by decide)
      (by decide)).2 "no"⟩

/-- C8: initializing a cash payment never consults the gateway (the gateway
outcome `g` is arbitrary and absent from the result): one record is created,
it stays `pending` with provider `cash`, and the route answers 201
immediately. -/
theorem initialize_cash_no_gateway (db : DB) (userId bid : Nat) (amt : Int)
    (cur freshRef : String) (g : Option InitData) (now : Nat) (bk : Booking)
    (ha : ¬amt = 0)
    (hb : findUserBooking db bid userId = some bk)
    (hnodup : findActivePaymentForBooking db bid = none) :
    ∃ p1 : Payment,
      initializeRoute db userId (some bid) (some amt) PMethod.cash cur freshRef
          g now
        = ({ status := 201, msg := "Cash payment initialized" },
            insertPayment db p1) ∧
      p1.status = PStatus.pending ∧ p1.paymentProvider = "cash" ∧
      p1.reference = freshRef ∧ p1.booking = bid ∧ p1.amount = amt := by
  refine ⟨preSave freshRef now (newPayment userId bid amt cur PMethod.cash bk),
    ?_, rfl, rfl, rfl, rfl, rfl⟩
  simp only [initializeRoute, hb, hnodup]
  rw [if_neg ha]
  simp

/-- Witness for C8: a cash initialization on the concrete database, with a
gateway stub that would report success, still answers 201 with a pending
record and ignores the stub. -/
theorem initialize_cash_no_gateway_witness :
    ((¬(5000 : Int) = 0) ∧
      findUserBooking dbNoPayment 1 1 = some bookingA ∧
      findActivePaymentForBooking dbNoPayment 1 = none) ∧
    (∃ p1 : Payment,
      initializeRoute dbNoPayment 1 (some 1) (some 5000) PMethod.cash "NGN"
          "PAY_N" (some { status := true, data := "url" }) 40
        = ({ status := 201, msg := "Cash payment initialized" },
            insertPayment dbNoPayment p1) ∧
      p1.status = PStatus.pending ∧ p1.paymentProvider = "cash" ∧
      p1.reference = "PAY_N" ∧ p1.booking = 1 ∧ p1.amount = 5000) :=
  ⟨⟨by decide, by decide, by decide⟩,
    initialize_cash_no_gateway dbNoPayment 1 1 5000 "NGN" "PAY_N"
      (some { status := true, data := "url" }) 40 bookingA
      (by decide) (by decide) (by decide)⟩

/-- C9: every authenticated, parsed webhook is acknowledged with 200 —
whatever the event and whatever the lookup finds — and when the reference
matches no stored payment the database is returned unchanged; non-2xx
answers arise only from the signature guard (400) or a parse failure (500). -/
theorem webhook_ack_authenticated (hmacHex : String → String) (body : List Nat)
    (s : String) (e : WebhookEvent) (now : Nat) (db : DB)
    (hs : ¬s = "") (hsig : verifyPaystackSignature hmacHex body s = true) :
    (webhookPaystack hmacHex body (some s) (some e) now db).1.status = 200 ∧
    (findPaymentByReference db e.reference = none →
      webhookPaystack hmacHex body (some s) (some e) now db
        = ({ status := 200, msg := "OK" }, db)) := by
  constructor
  · simp only [webhookPaystack]
    rw [if_neg hs, if_pos hsig]
    by_cases h1 : e.event = "charge.success"
    · rw [if_pos h1]
      cases hf : findPaymentByReference db e.reference with
      | none => rfl
      | some payment =>
        by_cases h2 : payment.status = PStatus.completed
        · simp [h2]
        · simp only [ne_eq, h2, not_false_eq_true, if_true]
          cases hb2 : findBookingById
              (savePayment db (markAsCompleted now e.transactionId e.data payment))
              payment.booking <;> simp [hb2]
    · rw [if_neg h1]
      by_cases h2 : e.event = "charge.failed"
      · rw [if_pos h2]
        cases hf : findPaymentByReference db e.reference <;> simp [hf]
      · rw [if_neg h2]
  · intro hf
    simp only [webhookPaystack]
    rw [if_neg hs, if_pos hsig]
    by_cases h1 : e.event = "charge.success"
    · simp [h1, hf]
    · by_cases h2 : e.event = "charge.failed" <;> simp [h1, h2, hf]

/-- Witness for C9: an authenticated charge.success for an unknown reference
on the concrete database is acknowledged with 200 and changes nothing. -/
theorem webhook_ack_authenticated_witness :
    ((¬jsonStringifyBuffer [] = "") ∧
      verifyPaystackSignature id [] (jsonStringifyBuffer []) = true ∧
      findPaymentByReference dbCompleted unknownEvent.reference = none) ∧
    ((webhookPaystack id [] (some (jsonStringifyBuffer [])) (some unknownEvent) 0
        dbCompleted).1.status = 200 ∧
      webhookPaystack id [] (some (jsonStringifyBuffer [])) (some unknownEvent) 0
          dbCompleted
        = ({ status := 200, msg := "OK" }, dbCompleted)) :=
  ⟨⟨by decide, by decide, by decide⟩,
    (webhook_ack_authenticated id [] (jsonStringifyBuffer []) unknownEvent 0
        dbCompleted (by decide) (by decide)).1,
    (webhook_ack_authenticated id [] (jsonStringifyBuffer []) unknownEvent 0
        dbCompleted (by decide) (by decide)).2 (by decide)⟩

end Goldbond
